import Mathlib

/-!
Verification of the controller session and response-normalization layer of
`nd-api-to-gui` (files `response_handler.py` and `sender_requests.py`),
shallowly embedded in Lean 4.

Conventions of the embedding:

* A Python `dict` response is modelled by a record whose fields are
  `Option`-valued: `none` models "key absent or value `None`" (both are
  indistinguishable through Python's `dict.get`).
* Python exceptions are modelled by `Except PyErr`; stateful methods return
  the post-state together with the `Except` outcome, so that the state at
  the moment an exception propagates is visible.
* The network (the `requests` library) is an input to each operation:
  `NetResult` is either a transport failure (`requests.exceptions.ConnectionError`)
  or an HTTP response object.  `CommitOut.netCalls` counts how many
  `requests.request` invocations the operation performed.
* The result of `json.loads(response.text)` is abstracted as the `DataField`
  carried by the HTTP response: either a parsed JSON object (of which only
  the `jwttoken` and `rbac` keys are ever read) or the invalid-JSON wrapper.
-/

namespace NdApiToGui

/-- The Python exception kinds raised by the two source files. -/
inductive PyErr where
  | valueError (msg : String)
  | typeError (msg : String)
  | indexError (msg : String)
deriving DecidableEq, Repr

deriving instance DecidableEq for Except

/-- `true` iff the `Except` outcome models a raised Python exception. -/
def isErr {α : Type} : Except PyErr α → Bool
  | Except.error _ => true
  | Except.ok _ => false

/-- `true` iff the outcome is a raised `TypeError`. -/
def isTypeErr {α : Type} : Except PyErr α → Bool
  | Except.error (PyErr.typeError _) => true
  | _ => false

/-- `true` iff the outcome is a raised `ValueError`. -/
def isValueErr {α : Type} : Except PyErr α → Bool
  | Except.error (PyErr.valueError _) => true
  | _ => false

/-!
## ResponseHandler (`response_handler.py`)
-/

/-- A controller response `dict`, restricted to the keys the handler reads:
`RETURN_CODE`, `MESSAGE` and `ERROR`.  `none` models key-absent-or-None. -/
structure CtrlResponse where
  RETURN_CODE : Option Int
  MESSAGE : Option String
  ERROR : Option String
deriving DecidableEq, Repr

/-- The empty dict `{}` (the initial value of `ResponseHandler._response`). -/
def CtrlResponse.isEmpty (r : CtrlResponse) : Bool :=
  r.RETURN_CODE.isNone && r.MESSAGE.isNone && r.ERROR.isNone

/-- The result `dict` computed by the handler, restricted to the keys it can
hold: `found`, `success`, `changed`; `none` models an absent key. -/
structure RDict where
  found : Option Bool
  success : Option Bool
  changed : Option Bool
deriving DecidableEq, Repr

/-- The empty result dict `{}`. -/
def RDict.empty : RDict := ⟨none, none, none⟩

/-- The mutable state of a `ResponseHandler` instance. -/
structure ResponseHandler where
  response : CtrlResponse
  verb : String
  result : RDict
deriving DecidableEq, Repr

/-- `ResponseHandler.__init__`: `_response = {}`, `_result = {}`, `_verb = ""`. -/
def ResponseHandler.init : ResponseHandler :=
  { response := ⟨none, none, none⟩, verb := "", result := RDict.empty }

/-- The `response` property setter: `TypeError` for non-dicts is ruled out by
typing; raises `ValueError` when the `MESSAGE` or `RETURN_CODE` key is
missing (or its value is `None`). -/
def ResponseHandler.setResponse (st : ResponseHandler) (value : CtrlResponse) :
    ResponseHandler × Except PyErr Unit :=
  if value.MESSAGE.isNone then
    (st, Except.error (PyErr.valueError "response must have a MESSAGE key"))
  else if value.RETURN_CODE.isNone then
    (st, Except.error (PyErr.valueError "response must have a RETURN_CODE key"))
  else
    ({ st with response := value }, Except.ok ())

/-- The `verb` property setter: raises `ValueError` unless the value is one
of `DELETE`, `GET`, `POST`, `PUT`. -/
def ResponseHandler.setVerb (st : ResponseHandler) (value : String) :
    ResponseHandler × Except PyErr Unit :=
  if value = "DELETE" ∨ value = "GET" ∨ value = "POST" ∨ value = "PUT" then
    ({ st with verb := value }, Except.ok ())
  else
    (st, Except.error (PyErr.valueError "verb must be one of DELETE, GET, POST, PUT"))

/-- `ResponseHandler._get_response`: classification of a GET response.
Transcribes the source's conditions: `RETURN_CODE == 404 and MESSAGE == "Not Found"`,
then `RETURN_CODE not in {200, 404} or MESSAGE != "OK"`, over `dict.get`
(Option) semantics. -/
def ResponseHandler.getResponseResult (r : CtrlResponse) : RDict :=
  if r.RETURN_CODE = some 404 ∧ r.MESSAGE = some "Not Found" then
    ⟨some false, some true, none⟩
  else if (¬ (r.RETURN_CODE = some 200 ∨ r.RETURN_CODE = some 404)) ∨ r.MESSAGE ≠ some "OK" then
    ⟨some false, some false, none⟩
  else
    ⟨some true, some true, none⟩

/-- `ResponseHandler._post_put_delete_response`: classification of a
POST/PUT/DELETE response.  Transcribes the source's conditions:
`response.get("ERROR") is not None`, then
`response.get("MESSAGE") != "OK" and response.get("MESSAGE") is not None`. -/
def ResponseHandler.postPutDeleteResponse (r : CtrlResponse) : RDict :=
  if r.ERROR.isSome then
    ⟨none, some false, some false⟩
  else if r.MESSAGE ≠ some "OK" ∧ r.MESSAGE.isSome then
    ⟨none, some false, some false⟩
  else
    ⟨none, some true, some true⟩

/-- `ResponseHandler.commit`: raises `ValueError` when `response` is still the
empty dict (`if not self.response`) or `verb` is unset (`if not self.verb`);
otherwise dispatches through `_handle_response` (GET vs. everything else)
and stores the classification in `_result`. -/
def ResponseHandler.commit (st : ResponseHandler) :
    ResponseHandler × Except PyErr Unit :=
  if st.response.isEmpty then
    (st, Except.error (PyErr.valueError "response must be set prior to calling commit"))
  else if st.verb = "" then
    (st, Except.error (PyErr.valueError "verb must be set prior to calling commit"))
  else if st.verb = "GET" then
    ({ st with result := ResponseHandler.getResponseResult st.response }, Except.ok ())
  else
    ({ st with result := ResponseHandler.postPutDeleteResponse st.response }, Except.ok ())

/-- Modelled from the spec (claim C2's three-case rule, for comparison with
the source's `_post_put_delete_response`): "if the response carries a
non-empty error field then `success=false, changed=false`; else if a message
field is present and not equal to OK then `success=false, changed=false`;
else `success=true, changed=true`". -/
def specPostPutDeleteRule (r : CtrlResponse) : RDict :=
  if r.ERROR.getD "" ≠ "" then
    ⟨none, some false, some false⟩
  else if r.MESSAGE.isSome ∧ r.MESSAGE ≠ some "OK" then
    ⟨none, some false, some false⟩
  else
    ⟨none, some true, some true⟩

/-- C1: for every GET response record carrying `RETURN_CODE` and `MESSAGE`
fields, `ResponseHandler` classification follows the spec's three-case rule:
404/"Not Found" gives `found=false, success=true`; otherwise a return code
outside {200, 404} or a message other than "OK" gives `found=false,
success=false`; otherwise `found=true, success=true`. -/
theorem c1_get_classification (r : CtrlResponse)
    (h1 : r.RETURN_CODE.isSome = true) (h2 : r.MESSAGE.isSome = true) :
    (r.RETURN_CODE = some 404 ∧ r.MESSAGE = some "Not Found" →
      ResponseHandler.getResponseResult r = ⟨some false, some true, none⟩) ∧
    (¬ (r.RETURN_CODE = some 404 ∧ r.MESSAGE = some "Not Found") →
      ((¬ (r.RETURN_CODE = some 200 ∨ r.RETURN_CODE = some 404)) ∨ r.MESSAGE ≠ some "OK") →
      ResponseHandler.getResponseResult r = ⟨some false, some false, none⟩) ∧
    ((r.RETURN_CODE = some 200 ∨ r.RETURN_CODE = some 404) → r.MESSAGE = some "OK" →
      ResponseHandler.getResponseResult r = ⟨some true, some true, none⟩) := by
  unfold ResponseHandler.getResponseResult
  refine ⟨?_, ?_, ?_⟩
  · intro h
    rw [if_pos h]
  · intro hn hc
    rw [if_neg hn, if_pos hc]
  · intro hrc hmsg
    have hne : (some "OK" : Option String) ≠ some "Not Found" := by decide
    have hn : ¬ (r.RETURN_CODE = some 404 ∧ r.MESSAGE = some "Not Found") := by
      rintro ⟨-, hm⟩
      exact hne (hmsg ▸ hm)
    have hc : ¬ ((¬ (r.RETURN_CODE = some 200 ∨ r.RETURN_CODE = some 404)) ∨
        r.MESSAGE ≠ some "OK") := by
      push_neg
      exact ⟨hrc, hmsg⟩
    rw [if_neg hn, if_neg hc]

/-- Witness for C1: the concrete record `{RETURN_CODE: 200, MESSAGE: "OK"}`
satisfies the hypotheses and is classified `found=true, success=true`. -/
theorem c1_get_classification_witness :
    ResponseHandler.getResponseResult ⟨some 200, some "OK", none⟩ =
      ⟨some true, some true, none⟩ :=
  (c1_get_classification ⟨some 200, some "OK", none⟩ (by decide) (by decide)).2.2
    (Or.inl rfl) rfl

/-- Counterexample to C2 as stated: on the record
`{RETURN_CODE: 200, MESSAGE: "OK", ERROR: ""}` — an ERROR key present with an
empty value — the spec's rule ("non-empty error field") yields
`success=true, changed=true`, but the source (which tests
`get("ERROR") is not None`, i.e. mere presence) yields
`success=false, changed=false`. -/
theorem c2_counterexample :
    specPostPutDeleteRule ⟨some 200, some "OK", some ""⟩ = ⟨none, some true, some true⟩ ∧
    ResponseHandler.postPutDeleteResponse ⟨some 200, some "OK", some ""⟩ =
      ⟨none, some false, some false⟩ := by
  constructor <;> decide

/-- C2 (amended): the error branch triggers on any *present* (non-`None`)
ERROR field, the empty string included: if the ERROR key is present then
`success=false, changed=false` regardless of status code; otherwise if a
message field is present and not equal to "OK" then `success=false,
changed=false`; otherwise `success=true, changed=true`. -/
theorem c2_post_put_delete_amended (r : CtrlResponse) :
    (r.ERROR.isSome = true →
      ResponseHandler.postPutDeleteResponse r = ⟨none, some false, some false⟩) ∧
    (r.ERROR = none → r.MESSAGE.isSome = true → r.MESSAGE ≠ some "OK" →
      ResponseHandler.postPutDeleteResponse r = ⟨none, some false, some false⟩) ∧
    (r.ERROR = none → (r.MESSAGE = none ∨ r.MESSAGE = some "OK") →
      ResponseHandler.postPutDeleteResponse r = ⟨none, some true, some true⟩) := by
  unfold ResponseHandler.postPutDeleteResponse
  refine ⟨?_, ?_, ?_⟩
  · intro h
    rw [if_pos h]
  · intro he hm hne
    rw [if_neg (by simp [he]), if_pos ⟨hne, hm⟩]
  · intro he hm
    rw [if_neg (by simp [he])]
    rcases hm with hm | hm
    · rw [if_neg (by simp [hm])]
    · rw [if_neg (by simp [hm])]

/-- Witness for C2 (amended): `{RETURN_CODE: 200, MESSAGE: "Internal Server Error",
ERROR: "Internal Server Error"}` carries an ERROR key, so the result is
`success=false, changed=false`. -/
theorem c2_post_put_delete_amended_witness :
    ResponseHandler.postPutDeleteResponse
      ⟨some 200, some "Internal Server Error", some "Internal Server Error"⟩ =
      ⟨none, some false, some false⟩ :=
  (c2_post_put_delete_amended
    ⟨some 200, some "Internal Server Error", some "Internal Server Error"⟩).1 rfl

/-!
## Sender (`sender_requests.py`)
-/

/-- Python's `str.split(sep)` for a one-character separator, at the level of
character lists (structural recursion so that concrete inputs evaluate). -/
def splitCharAux (c : Char) : List Char → List Char → List (List Char)
  | [], acc => [acc.reverse]
  | x :: xs, acc =>
    if x = c then acc.reverse :: splitCharAux c xs []
    else splitCharAux c xs (x :: acc)

/-- Python's `s.split(c)` for a one-character separator `c`. -/
def pySplit (s : String) (c : Char) : List String :=
  (splitCharAux c s.toList []).map (fun l => String.mk l)

/-- The token extraction of `Sender._gen_response`:
`token.split("=")[1]` followed by `.split(";")[0]`.  Returns `none` when the
header contains no `=`, in which case the Python subscript `[1]` raises
`IndexError`. -/
def extractCookieValue (s : String) : Option String :=
  match pySplit s '=' with
  | _ :: second :: _ => some ((pySplit second ';').headD "")
  | _ => none

/-- The result of `json.loads(response.text)` as far as the sender reads it:
either a parsed JSON object (only the `jwttoken` and `rbac` keys are ever
looked up, `none` = key absent) or the `INVALID_JSON` wrapper built in the
`json.JSONDecodeError` handler of `_gen_response`. -/
inductive DataField where
  | parsed (jwttoken : Option String) (rbac : Option String)
  | invalidJson (text : String)
deriving DecidableEq, Repr

/-- The `requests.Response` object, restricted to the attributes
`_gen_response` reads: the `Set-Cookie` header, `status_code`, the parsed
body (`json.loads(response.text)` abstracted as `data`), `reason`,
`request.method` and `url`. -/
structure HttpResponse where
  setCookie : Option String
  status_code : Int
  data : DataField
  reason : String
  method : String
  url : String
deriving DecidableEq, Repr

/-- One network interaction: either
`requests.exceptions.ConnectionError` or an HTTP response object. -/
inductive NetResult where
  | connError
  | ok (r : HttpResponse)
deriving DecidableEq, Repr

/-- The response dict built by `_gen_response` and stored in
`Sender._response`. -/
structure SResponse where
  RETURN_CODE : Int
  DATA : DataField
  MESSAGE : String
  METHOD : String
  REQUEST_PATH : String
deriving DecidableEq, Repr

/-- The mutable state of a `Sender` instance (`Sender.__init__`).
`response = none` models the initial empty dict `{}`; `payload` and
`headers` are modelled as association lists. -/
structure Sender where
  domain : String
  headers : List (String × String)
  history_rc : List Int
  history_path : List String
  ip4 : String
  ip6 : String
  jwttoken : String
  last_rc : Int
  last_url : String
  logged_in : Bool
  password : String
  path : String
  payload : List (String × String)
  rbac : String
  return_code : Int
  response : Option SResponse
  timeout : Int
  token : String
  url : String
  username : String
  verb : String
deriving DecidableEq, Repr

/-- `Sender.__init__` with no relevant environment variables set:
`domain = "local"`, `username = "admin"`, everything else empty,
`last_rc = -1`, `return_code = -1`, `timeout = 30`, empty history deques. -/
def Sender.init : Sender :=
  { domain := "local", headers := [], history_rc := [], history_path := []
    ip4 := "", ip6 := "", jwttoken := "", last_rc := -1, last_url := ""
    logged_in := false, password := "", path := "", payload := [], rbac := ""
    return_code := -1, response := none, timeout := 30, token := "", url := ""
    username := "admin", verb := "" }

/-- The outcome of an operation that may touch the network: the post-state,
the raised-or-returned result, and the number of `requests.request`
invocations performed. -/
structure CommitOut where
  state : Sender
  result : Except PyErr Unit
  netCalls : Nat
deriving DecidableEq, Repr

/-- `Sender._set_url`: raises `IndexError` when `path` is empty
(`self.path[0]`), raises `ValueError` from `_get_host` when neither `ip4`
nor `ip6` is set, and otherwise stores
`https://<host><path>` (inserting a `/` when `path` does not start with
one), preferring `ip4` over `ip6`. -/
def Sender.setUrl (st : Sender) : Sender × Except PyErr Unit :=
  match st.path.toList with
  | [] => (st, Except.error (PyErr.indexError "string index out of range"))
  | c :: _ =>
    if st.ip4 = "" ∧ st.ip6 = "" then
      (st, Except.error (PyErr.valueError "ip4 or ip6 must be set before calling commit"))
    else
      let host := if st.ip4 ≠ "" then st.ip4 else st.ip6
      let url :=
        if c = '/' then "https://" ++ host ++ st.path
        else "https://" ++ host ++ "/" ++ st.path
      ({ st with url := url }, Except.ok ())

/-- `Sender._gen_response`: first updates the token from the `Set-Cookie`
header when present (raising `IndexError` when the header contains no `=`),
then records `return_code` and stores the response dict
`{RETURN_CODE, DATA, MESSAGE, METHOD, REQUEST_PATH}`. -/
def Sender.genResponse (st : Sender) (r : HttpResponse) : Sender × Except PyErr Unit :=
  let store := fun (st2 : Sender) =>
    ({ st2 with
        return_code := r.status_code,
        response := some ⟨r.status_code, r.data, r.reason, r.method, r.url⟩ },
      Except.ok ())
  match r.setCookie with
  | none => store st
  | some s =>
    match extractCookieValue s with
    | none => (st, Except.error (PyErr.indexError "list index out of range"))
    | some v => store { st with token := v }

/-- `Sender.commit`: verifies host/path/verb (`_verify_commit_parameters`)
before any network activity, builds the URL (`_set_url`), performs the
single `requests.request` call, converts `ConnectionError` into
`ValueError`, clears the payload, and stores the response via
`_gen_response`. -/
def Sender.commit (st : Sender) (net : NetResult) : CommitOut :=
  if st.ip4 = "" ∧ st.ip6 = "" then
    ⟨st, Except.error (PyErr.valueError "ip4 or ip6 must be set before calling commit"), 0⟩
  else if st.path = "" then
    ⟨st, Except.error (PyErr.valueError "path must be set before calling commit"), 0⟩
  else if st.verb = "" then
    ⟨st, Except.error (PyErr.valueError "verb must be set before calling commit"), 0⟩
  else
    let st1 := (Sender.setUrl st).1
    match net with
    | NetResult.connError =>
      ⟨st1, Except.error (PyErr.valueError "Error connecting to the controller"), 1⟩
    | NetResult.ok r =>
      let st2 := { st1 with payload := [] }
      let g := Sender.genResponse st2 r
      ⟨g.1, g.2, 1⟩

/-- `Sender._update_status` (defined in the source but never invoked by
`commit`): copies `return_code`/`url` into `last_rc`/`last_url` and
prepends them to the two history deques, whose `maxlen=50` drops the oldest
entry once full (`appendleft` on a full deque). -/
def Sender.updateStatus (st : Sender) : Sender :=
  { st with
      last_rc := st.return_code,
      last_url := st.url,
      history_rc := List.take 50 (st.return_code :: st.history_rc),
      history_path := List.take 50 (st.url :: st.history_path) }

/-- `Sender._update_token`: reads `response["DATA"]["jwttoken"]` into both
`token` and `jwttoken`, then `response["DATA"]["rbac"]` into `rbac`; a
`KeyError` at any lookup is re-raised as `ValueError`.  The `rbac` lookup
happens after the token assignments, so a missing `rbac` key leaves the new
token in place while the call still raises. -/
def Sender.updateToken (st : Sender) : Sender × Except PyErr Unit :=
  match st.response with
  | none => (st, Except.error (PyErr.valueError "Unable to parse token from response"))
  | some r =>
    match r.DATA with
    | DataField.invalidJson _ =>
      (st, Except.error (PyErr.valueError "Unable to parse token from response"))
    | DataField.parsed jt rb =>
      match jt with
      | none => (st, Except.error (PyErr.valueError "Unable to parse token from response"))
      | some t =>
        let st1 := { st with token := t, jwttoken := t }
        match rb with
        | none => (st1, Except.error (PyErr.valueError "Unable to parse token from response"))
        | some rv => ({ st1 with rbac := rv }, Except.ok ())

/-- `Sender.login`: returns immediately when `_logged_in` is already true;
otherwise validates credentials, sets `path = "/login"`, builds the URL,
installs the `{userName, userPasswd, domain}` payload and the JSON
content-type header, sets `verb = "POST"`, performs `commit()`, extracts the
token (`_update_token`) and only then sets `_logged_in = true`. -/
def Sender.login (st : Sender) (net : NetResult) : CommitOut :=
  if st.logged_in then ⟨st, Except.ok (), 0⟩
  else if st.username = "" ∨ st.password = "" ∨ st.domain = "" then
    ⟨st, Except.error (PyErr.valueError "call Sender credentials before calling login"), 0⟩
  else
    let st0 := { st with logged_in := false, path := "/login" }
    match Sender.setUrl st0 with
    | (st1, Except.error e) => ⟨st1, Except.error e, 0⟩
    | (st1, Except.ok ()) =>
      let st2 := { st1 with
        payload := [("userName", st1.username), ("userPasswd", st1.password),
          ("domain", st1.domain)],
        headers := [("Content-Type", "application/json")],
        verb := "POST" }
      let out := Sender.commit st2 net
      match out.result with
      | Except.error e => ⟨out.state, Except.error e, out.netCalls⟩
      | Except.ok () =>
        match Sender.updateToken out.state with
        | (st3, Except.error e) => ⟨st3, Except.error e, out.netCalls⟩
        | (st3, Except.ok ()) => ⟨{ st3 with logged_in := true }, Except.ok (), out.netCalls⟩

/-- The `timeout` property setter: raises `TypeError` when the value is not
a Python `int`; any `int` (positive or not) is stored unchanged. -/
inductive PyVal where
  | pyInt (n : Int)
  | pyStr (s : String)
  | pyNone
deriving DecidableEq, Repr

/-- `Sender.timeout` setter (`sender_requests.py` lines 766-775). -/
def Sender.setTimeout (st : Sender) (value : PyVal) : Sender × Except PyErr Unit :=
  match value with
  | PyVal.pyInt n => ({ st with timeout := n }, Except.ok ())
  | _ => (st, Except.error (PyErr.typeError "timeout must be an int"))

/-!
## Helper lemmas about the Sender operations
-/

/-- `_set_url` only ever writes the `url` field. -/
theorem Sender.setUrl_fst (st : Sender) :
    (Sender.setUrl st).1 = { st with url := (Sender.setUrl st).1.url } := by
  unfold Sender.setUrl
  rcases st.path.toList with _ | ⟨c, cs⟩
  · rfl
  · dsimp only
    by_cases h : st.ip4 = "" ∧ st.ip6 = ""
    · rw [if_pos h]
    · rw [if_neg h]

/-- `_gen_response` only ever writes `token`, `return_code` and `response`. -/
theorem Sender.genResponse_fst (st : Sender) (r : HttpResponse) :
    (Sender.genResponse st r).1 =
      { st with
          token := (Sender.genResponse st r).1.token,
          return_code := (Sender.genResponse st r).1.return_code,
          response := (Sender.genResponse st r).1.response } := by
  unfold Sender.genResponse
  rcases r.setCookie with _ | s
  · rfl
  · dsimp only
    rcases extractCookieValue s with _ | v
    · rfl
    · rfl

/-- `commit` never touches the history deques, the `last_rc`/`last_url`
diagnostics, the authentication flag, the credentials or the timeout. -/
theorem Sender.commit_preserves_diag (st : Sender) (net : NetResult) :
    (Sender.commit st net).state.history_rc = st.history_rc ∧
    (Sender.commit st net).state.history_path = st.history_path ∧
    (Sender.commit st net).state.last_rc = st.last_rc ∧
    (Sender.commit st net).state.last_url = st.last_url ∧
    (Sender.commit st net).state.logged_in = st.logged_in ∧
    (Sender.commit st net).state.username = st.username ∧
    (Sender.commit st net).state.password = st.password ∧
    (Sender.commit st net).state.domain = st.domain ∧
    (Sender.commit st net).state.ip4 = st.ip4 ∧
    (Sender.commit st net).state.ip6 = st.ip6 ∧
    (Sender.commit st net).state.timeout = st.timeout := by
  unfold Sender.commit
  split_ifs
  · exact ⟨rfl, rfl, rfl, rfl, rfl, rfl, rfl, rfl, rfl, rfl, rfl⟩
  · exact ⟨rfl, rfl, rfl, rfl, rfl, rfl, rfl, rfl, rfl, rfl, rfl⟩
  · exact ⟨rfl, rfl, rfl, rfl, rfl, rfl, rfl, rfl, rfl, rfl, rfl⟩
  · rcases net with _ | r <;> simp only
    · rw [Sender.setUrl_fst st]
      exact ⟨rfl, rfl, rfl, rfl, rfl, rfl, rfl, rfl, rfl, rfl, rfl⟩
    · rw [Sender.genResponse_fst { (Sender.setUrl st).1 with payload := [] } r,
        Sender.setUrl_fst st]
      exact ⟨rfl, rfl, rfl, rfl, rfl, rfl, rfl, rfl, rfl, rfl, rfl⟩

/-- On a transport error, `commit` raises before `_gen_response`, so the
token, the stored response and the payload are also untouched. -/
theorem Sender.commit_connError_state (st : Sender) :
    isErr (Sender.commit st NetResult.connError).result = true ∧
    (Sender.commit st NetResult.connError).state.token = st.token ∧
    (Sender.commit st NetResult.connError).state.response = st.response ∧
    (Sender.commit st NetResult.connError).state.payload = st.payload := by
  unfold Sender.commit
  split_ifs
  · exact ⟨rfl, rfl, rfl, rfl⟩
  · exact ⟨rfl, rfl, rfl, rfl⟩
  · exact ⟨rfl, rfl, rfl, rfl⟩
  · simp only
    rw [Sender.setUrl_fst st]
    exact ⟨rfl, rfl, rfl, rfl⟩

/-- C3 counterexample state: a sender ready to commit. -/
def c3exState : Sender :=
  { Sender.init with ip4 := "10.1.1.1", path := "/api/v1/templates", verb := "GET" }

/-- C3 counterexample network input: a plain 200/OK response. -/
def c3exNet : NetResult :=
  NetResult.ok
    ⟨none, 200, DataField.parsed none none, "OK", "GET", "https://10.1.1.1/api/v1/templates"⟩

/-- Counterexample to C3 as stated: this send completes successfully
(result is `ok`), yet afterwards the history is still empty — the new
(status code, path) pair is *not* at the front — and `last_rc` still holds
its initial `-1` rather than this call's status code 200.  `commit` never
invokes `_update_status`. -/
theorem c3_counterexample :
    (Sender.commit c3exState c3exNet).result = Except.ok () ∧
    (Sender.commit c3exState c3exNet).state.history_rc = [] ∧
    (Sender.commit c3exState c3exNet).state.history_path = [] ∧
    (Sender.commit c3exState c3exNet).state.last_rc = -1 ∧
    (Sender.commit c3exState c3exNet).state.last_url ≠
      "https://10.1.1.1/api/v1/templates" := by
  refine ⟨by decide, by decide, by decide, by decide, by decide⟩

/-- C3 (amended): `Sender.commit` never updates the history deques or the
last-status/last-URL diagnostics — the updater `_update_status` exists in
the source but is never invoked ("Not using currently").  `_update_status`
itself, were it called, would put the new (status code, URL) pair at the
front of the history and cap both deques at 50 entries. -/
theorem c3_history_amended (st : Sender) (net : NetResult) :
    (Sender.commit st net).state.history_rc = st.history_rc ∧
    (Sender.commit st net).state.history_path = st.history_path ∧
    (Sender.commit st net).state.last_rc = st.last_rc ∧
    (Sender.commit st net).state.last_url = st.last_url ∧
    (Sender.updateStatus st).history_rc.headD 0 = st.return_code ∧
    (Sender.updateStatus st).history_path.headD "" = st.url ∧
    (Sender.updateStatus st).last_rc = st.return_code ∧
    (Sender.updateStatus st).last_url = st.url ∧
    (Sender.updateStatus st).history_rc.length ≤ 50 ∧
    (Sender.updateStatus st).history_path.length ≤ 50 := by
  obtain ⟨d1, d2, d3, d4, -⟩ := Sender.commit_preserves_diag st net
  refine ⟨d1, d2, d3, d4, rfl, rfl, rfl, rfl, ?_, ?_⟩
  · simp [Sender.updateStatus]
  · simp [Sender.updateStatus]

/-- C9: a `send` that fails with a transport error raises `ValueError` and
leaves the token, the authentication flag, the credentials (username,
password, domain, host addresses) and the stored response exactly as they
were, so the session remains usable for a retry. -/
theorem c9_transport_error_preserves_session (st : Sender) :
    isErr (Sender.commit st NetResult.connError).result = true ∧
    (Sender.commit st NetResult.connError).state.token = st.token ∧
    (Sender.commit st NetResult.connError).state.logged_in = st.logged_in ∧
    (Sender.commit st NetResult.connError).state.username = st.username ∧
    (Sender.commit st NetResult.connError).state.password = st.password ∧
    (Sender.commit st NetResult.connError).state.domain = st.domain ∧
    (Sender.commit st NetResult.connError).state.ip4 = st.ip4 ∧
    (Sender.commit st NetResult.connError).state.ip6 = st.ip6 ∧
    (Sender.commit st NetResult.connError).state.response = st.response := by
  obtain ⟨he, ht, hr, -⟩ := Sender.commit_connError_state st
  obtain ⟨-, -, -, -, h5, h6, h7, h8, h9, h10, -⟩ :=
    Sender.commit_preserves_diag st NetResult.connError
  exact ⟨he, ht, h5, h6, h7, h8, h9, h10, hr⟩

/-- `_set_url` leaves the token unchanged. -/
theorem Sender.setUrl_token (st : Sender) :
    (Sender.setUrl st).1.token = st.token := by
  rw [Sender.setUrl_fst st]

/-- A `_gen_response` that returns normally stored the response dict built
from the HTTP response, and did not touch the authentication flag. -/
theorem Sender.genResponse_ok (st : Sender) (r : HttpResponse)
    (h : (Sender.genResponse st r).2 = Except.ok ()) :
    (Sender.genResponse st r).1.response =
      some ⟨r.status_code, r.data, r.reason, r.method, r.url⟩ := by
  unfold Sender.genResponse at h ⊢
  revert h
  rcases r.setCookie with _ | s
  · intro _
    rfl
  · dsimp only
    rcases extractCookieValue s with _ | v
    · intro h
      exact Except.noConfusion h
    · intro _
      rfl

/-- Token behaviour of `_gen_response`: no `Set-Cookie` header leaves the
token alone; a `Set-Cookie` header that lets the call return normally sets
the token to the extracted cookie value. -/
theorem Sender.genResponse_token (st : Sender) (r : HttpResponse) :
    (r.setCookie = none → (Sender.genResponse st r).1.token = st.token) ∧
    (∀ s, r.setCookie = some s → (Sender.genResponse st r).2 = Except.ok () →
      ∃ v, extractCookieValue s = some v ∧ (Sender.genResponse st r).1.token = v) := by
  unfold Sender.genResponse
  rcases hc : r.setCookie with _ | s
  · exact ⟨fun _ => rfl, fun s2 hs2 => absurd hs2 (by simp)⟩
  · dsimp only
    refine ⟨fun hn => absurd hn (by simp), fun s2 hs2 h => ?_⟩
    obtain rfl : s = s2 := Option.some_inj.mp hs2
    revert h
    rcases extractCookieValue s with _ | v
    · intro h
      exact Except.noConfusion h
    · intro _
      exact ⟨v, rfl, rfl⟩

/-- A `commit` that returns normally performed exactly one network request,
received an HTTP response (not a transport error), and stored the response
dict built from it. -/
theorem Sender.commit_ok (st : Sender) (net : NetResult)
    (h : (Sender.commit st net).result = Except.ok ()) :
    (Sender.commit st net).netCalls = 1 ∧
    ∃ r, net = NetResult.ok r ∧
      (Sender.commit st net).state.response =
        some ⟨r.status_code, r.data, r.reason, r.method, r.url⟩ := by
  unfold Sender.commit at h ⊢
  revert h
  split_ifs
  · intro h
    exact absurd h (by simp)
  · intro h
    exact absurd h (by simp)
  · intro h
    exact absurd h (by simp)
  · rcases net with _ | r
    · intro h
      exact absurd h (by simp)
    · intro h
      dsimp only at h ⊢
      exact ⟨rfl, r, rfl, Sender.genResponse_ok _ r h⟩

/-- C8: on every successful send, a present `Set-Cookie` header updates the
session token to the value extracted from the cookie (the substring between
the first `=` and the following `;`) before the call returns, and an absent
`Set-Cookie` header leaves the token unchanged. -/
theorem c8_token_update_on_send (st : Sender) (r : HttpResponse)
    (h : (Sender.commit st (NetResult.ok r)).result = Except.ok ()) :
    (r.setCookie = none →
      (Sender.commit st (NetResult.ok r)).state.token = st.token) ∧
    (∀ s, r.setCookie = some s →
      ∃ v, extractCookieValue s = some v ∧
        (Sender.commit st (NetResult.ok r)).state.token = v) := by
  unfold Sender.commit at h ⊢
  revert h
  split_ifs
  · intro h
    exact absurd h (by simp)
  · intro h
    exact absurd h (by simp)
  · intro h
    exact absurd h (by simp)
  · intro h
    dsimp only at h ⊢
    obtain ⟨hnone, hsome⟩ :=
      Sender.genResponse_token { (Sender.setUrl st).1 with payload := [] } r
    have htok : ({ (Sender.setUrl st).1 with payload := ([] : List (String × String)) }).token
        = st.token := Sender.setUrl_token st
    refine ⟨fun hn => (hnone hn).trans htok, fun s hs => ?_⟩
    obtain ⟨v, hv, ht⟩ := hsome s hs h
    exact ⟨v, hv, ht⟩

/-- C8 witness state: a sender with host, path and verb set. -/
def c8wState : Sender :=
  { Sender.init with
    ip4 := "10.1.1.1", path := "/api/v1/x", verb := "GET", token := "oldtoken" }

/-- C8 witness response: 200/OK carrying a fresh session cookie. -/
def c8wResp : HttpResponse :=
  ⟨some "AuthCookie=newtok; Path=/; HttpOnly", 200, DataField.parsed none none,
    "OK", "GET", "https://10.1.1.1/api/v1/x"⟩

/-- Witness for C8: the concrete send succeeds and the token becomes the
value extracted from the `Set-Cookie` header. -/
theorem c8_token_update_on_send_witness :
    ∃ v, extractCookieValue "AuthCookie=newtok; Path=/; HttpOnly" = some v ∧
      (Sender.commit c8wState (NetResult.ok c8wResp)).state.token = v :=
  (c8_token_update_on_send c8wState c8wResp (by decide)).2
    "AuthCookie=newtok; Path=/; HttpOnly" rfl

/-- `login()` on an already-authenticated session returns immediately: same
state, normal return, zero network calls. -/
theorem Sender.login_loggedIn (st : Sender) (net : NetResult)
    (h : st.logged_in = true) :
    Sender.login st net = ⟨st, Except.ok (), 0⟩ := by
  unfold Sender.login
  rw [if_pos h]

/-- A `_update_token` that returns normally found `jwttoken` and `rbac` in
the stored response's `DATA`, copied the token, and left the authentication
flag alone. -/
theorem Sender.updateToken_ok (st : Sender)
    (h : (Sender.updateToken st).2 = Except.ok ()) :
    ∃ resp jt rb, st.response = some resp ∧
      resp.DATA = DataField.parsed (some jt) (some rb) ∧
      (Sender.updateToken st).1.token = jt ∧
      (Sender.updateToken st).1.logged_in = st.logged_in := by
  unfold Sender.updateToken at h ⊢
  revert h
  rcases st.response with _ | resp
  · intro h
    exact absurd h (by simp)
  · dsimp only
    rcases hd : resp.DATA with ⟨jt0, rb0⟩ | t
    · rcases jt0 with _ | t0
      · intro h
        exact absurd h (by simp)
      · dsimp only
        rcases rb0 with _ | rv
        · intro h
          exact absurd h (by simp)
        · intro _
          exact ⟨resp, t0, rv, rfl, hd, rfl, rfl⟩
    · intro h
      exact absurd h (by simp)

/-- A `login()` on an unauthenticated session that returns normally made
exactly one network round-trip, ended authenticated, and took its token
from the `jwttoken` field of the response body. -/
theorem Sender.login_ok (st : Sender) (net : NetResult)
    (hL : st.logged_in = false)
    (h : (Sender.login st net).result = Except.ok ()) :
    (Sender.login st net).state.logged_in = true ∧
    (Sender.login st net).netCalls = 1 ∧
    ∃ r jt rb, net = NetResult.ok r ∧
      r.data = DataField.parsed (some jt) (some rb) ∧
      (Sender.login st net).state.token = jt := by
  unfold Sender.login at h ⊢
  rw [if_neg (by simp [hL])] at h ⊢
  revert h
  split_ifs
  · intro h
    exact absurd h (by simp)
  · dsimp only
    split
    next st1 e heq =>
      intro h
      exact absurd h (by simp)
    next st1 heq =>
      try dsimp only
      split
      next e hco =>
        intro h
        exact absurd h (by simp)
      next hco =>
        try dsimp only
        split
        next st3 e hut =>
          intro h
          exact absurd h (by simp)
        next st3 hut =>
          intro _
          obtain ⟨hn1, r, hr, hresp⟩ := Sender.commit_ok _ net hco
          have hut2 := congrArg Prod.snd hut
          have hst3 := congrArg Prod.fst hut
          obtain ⟨resp, jt, rb, hresp2, hdata, htok, -⟩ :=
            Sender.updateToken_ok _ hut2
          refine ⟨rfl, hn1, r, jt, rb, hr, ?_, ?_⟩
          · have h9 : some resp = some (⟨r.status_code, r.data, r.reason, r.method,
                r.url⟩ : SResponse) := hresp2.symm.trans hresp
            have hre : resp = ⟨r.status_code, r.data, r.reason, r.method, r.url⟩ :=
              Option.some_inj.mp h9
            rw [← hdata, hre]
          · show st3.token = jt
            have hst3b : _ = st3 := hst3
            rw [← hst3b]
            exact htok

/-- C4: `login()` is idempotent once authenticated — on an authenticated
session it returns the state unchanged with zero network calls; a first
successful login makes exactly one network round-trip, and a second
`login()` right after it makes zero, so two successive calls perform
exactly one round-trip. -/
theorem c4_login_idempotent (st : Sender) (net net2 : NetResult)
    (h : (Sender.login st net).result = Except.ok ()) :
    (st.logged_in = true → Sender.login st net = ⟨st, Except.ok (), 0⟩) ∧
    (st.logged_in = false → (Sender.login st net).netCalls = 1) ∧
    Sender.login (Sender.login st net).state net2 =
      ⟨(Sender.login st net).state, Except.ok (), 0⟩ := by
  refine ⟨fun hT => Sender.login_loggedIn st net hT, ?_, ?_⟩
  · intro hF
    exact (Sender.login_ok st net hF h).2.1
  · rcases hB : st.logged_in
    · exact Sender.login_loggedIn _ net2 (Sender.login_ok st net hB h).1
    · rw [Sender.login_loggedIn st net hB]
      exact Sender.login_loggedIn st net2 hB

/-- C4 witness state: fresh unauthenticated sender with credentials and host. -/
def c4wState : Sender :=
  { Sender.init with ip4 := "10.1.1.1", password := "secret" }

/-- C4 witness network input: a successful login response. -/
def c4wNet : NetResult :=
  NetResult.ok
    ⟨none, 200, DataField.parsed (some "tok-1") (some "rbac-1"), "OK", "POST",
      "https://10.1.1.1/login"⟩

/-- Witness for C4 at a concrete successful login. -/
theorem c4_login_idempotent_witness :
    (c4wState.logged_in = true →
      Sender.login c4wState c4wNet = ⟨c4wState, Except.ok (), 0⟩) ∧
    (c4wState.logged_in = false → (Sender.login c4wState c4wNet).netCalls = 1) ∧
    Sender.login (Sender.login c4wState c4wNet).state NetResult.connError =
      ⟨(Sender.login c4wState c4wNet).state, Except.ok (), 0⟩ :=
  c4_login_idempotent c4wState c4wNet NetResult.connError (by decide)

/-- C5 counterexample state: an unauthenticated sender about to send. -/
def c5exState : Sender :=
  { Sender.init with ip4 := "10.1.1.1", path := "/api/v1/y", verb := "GET" }

/-- C5 counterexample network input: the controller answers 200/OK and sets
a session cookie. -/
def c5exNet : NetResult :=
  NetResult.ok
    ⟨some "AuthCookie=abc123; Path=/", 200, DataField.parsed none none, "OK",
      "GET", "https://10.1.1.1/api/v1/y"⟩

/-- Counterexample to C5 as stated: a successful `send()` on an
unauthenticated session whose response carries a `Set-Cookie` header leaves
the session in the allegedly impossible transitional state — non-empty
token with `authenticated` false — and this state is visible to the caller
(the call returned normally). -/
theorem c5_counterexample :
    (Sender.commit c5exState c5exNet).result = Except.ok () ∧
    (Sender.commit c5exState c5exNet).state.token = "abc123" ∧
    (Sender.commit c5exState c5exNet).state.token ≠ "" ∧
    (Sender.commit c5exState c5exNet).state.logged_in = false := by
  refine ⟨by decide, by decide, by decide, by decide⟩

/-- C5 (amended): the two-state invariant does not hold (an unauthenticated
session can hold a non-empty token after an opportunistic cookie update);
what does hold is that a `login()` that returns normally leaves the session
authenticated, and — when it was not already authenticated — holding the
`jwttoken` of the login response's body. -/
theorem c5_login_auth_amended (st : Sender) (net : NetResult)
    (h : (Sender.login st net).result = Except.ok ()) :
    (Sender.login st net).state.logged_in = true ∧
    (st.logged_in = false →
      ∃ r jt rb, net = NetResult.ok r ∧
        r.data = DataField.parsed (some jt) (some rb) ∧
        (Sender.login st net).state.token = jt) := by
  rcases hB : st.logged_in
  · obtain ⟨h1, -, h3⟩ := Sender.login_ok st net hB h
    exact ⟨h1, fun _ => h3⟩
  · rw [Sender.login_loggedIn st net hB]
    exact ⟨hB, fun hF => absurd hF (by decide)⟩

/-- C5 amended witness state: unauthenticated sender with credentials. -/
def c5wState : Sender :=
  { Sender.init with ip4 := "10.1.1.1", password := "pw" }

/-- C5 amended witness network input: a successful login response. -/
def c5wNet : NetResult :=
  NetResult.ok
    ⟨none, 200, DataField.parsed (some "tok-5") (some "rbac-5"), "OK", "POST",
      "https://10.1.1.1/login"⟩

/-- Witness for the amended C5 at a concrete successful login. -/
theorem c5_login_auth_amended_witness :
    (Sender.login c5wState c5wNet).state.logged_in = true ∧
    (c5wState.logged_in = false →
      ∃ r jt rb, c5wNet = NetResult.ok r ∧
        r.data = DataField.parsed (some jt) (some rb) ∧
        (Sender.login c5wState c5wNet).state.token = jt) :=
  c5_login_auth_amended c5wState c5wNet (by decide)

/-- C6: `ResponseHandler.commit()` raises `ValueError` whenever it is
invoked before both `verb` and `response` have been set (leaving the handler
untouched), and `Sender`'s `commit()` raises `ValueError` whenever it is
invoked before host (`ip4` or `ip6`), `path` and `verb` have all been set —
without attempting any network call and without changing the state. -/
theorem c6_commit_preconditions (rh : ResponseHandler) (st : Sender)
    (net : NetResult)
    (h1 : rh.response.isEmpty = true ∨ rh.verb = "")
    (h2 : (st.ip4 = "" ∧ st.ip6 = "") ∨ st.path = "" ∨ st.verb = "") :
    isValueErr (ResponseHandler.commit rh).2 = true ∧
    (ResponseHandler.commit rh).1 = rh ∧
    isValueErr (Sender.commit st net).result = true ∧
    (Sender.commit st net).state = st ∧
    (Sender.commit st net).netCalls = 0 := by
  have hrh : isValueErr (ResponseHandler.commit rh).2 = true ∧
      (ResponseHandler.commit rh).1 = rh := by
    unfold ResponseHandler.commit
    rcases h1 with h | h
    · rw [if_pos h]
      exact ⟨rfl, rfl⟩
    · by_cases he : rh.response.isEmpty = true
      · rw [if_pos he]
        exact ⟨rfl, rfl⟩
      · rw [if_neg he, if_pos h]
        exact ⟨rfl, rfl⟩
  have hsd : isValueErr (Sender.commit st net).result = true ∧
      (Sender.commit st net).state = st ∧
      (Sender.commit st net).netCalls = 0 := by
    unfold Sender.commit
    by_cases hh : st.ip4 = "" ∧ st.ip6 = ""
    · rw [if_pos hh]
      exact ⟨rfl, rfl, rfl⟩
    · rw [if_neg hh]
      by_cases hp : st.path = ""
      · rw [if_pos hp]
        exact ⟨rfl, rfl, rfl⟩
      · rw [if_neg hp]
        by_cases hv : st.verb = ""
        · rw [if_pos hv]
          exact ⟨rfl, rfl, rfl⟩
        · tauto
  exact ⟨hrh.1, hrh.2, hsd.1, hsd.2.1, hsd.2.2⟩

/-- Witness for C6: both fresh instances (empty response/verb, no host set)
raise `ValueError` from `commit()` with the state untouched and no network
call. -/
theorem c6_commit_preconditions_witness :
    isValueErr (ResponseHandler.commit ResponseHandler.init).2 = true ∧
    (ResponseHandler.commit ResponseHandler.init).1 = ResponseHandler.init ∧
    isValueErr (Sender.commit Sender.init NetResult.connError).result = true ∧
    (Sender.commit Sender.init NetResult.connError).state = Sender.init ∧
    (Sender.commit Sender.init NetResult.connError).netCalls = 0 :=
  c6_commit_preconditions ResponseHandler.init Sender.init NetResult.connError
    (Or.inl (by decide)) (Or.inl ⟨rfl, rfl⟩)

/-- Counterexample to C7 as stated: setting `timeout` to the non-positive
integers `0` and `-5` succeeds and stores them, where the claim requires
every non-positive integer to fail. -/
theorem c7_counterexample :
    (Sender.setTimeout Sender.init (PyVal.pyInt 0)).2 = Except.ok () ∧
    (Sender.setTimeout Sender.init (PyVal.pyInt 0)).1.timeout = 0 ∧
    (Sender.setTimeout Sender.init (PyVal.pyInt (-5))).2 = Except.ok () ∧
    (Sender.setTimeout Sender.init (PyVal.pyInt (-5))).1.timeout = -5 := by
  refine ⟨by decide, by decide, by decide, by decide⟩

/-- C7 (amended): the `timeout` setter only checks `isinstance(value, int)` —
every integer, zero and negatives included, is accepted and stored, and
every non-integer fails with `TypeError`, leaving the state unchanged. -/
theorem c7_timeout_amended (st : Sender) (v : PyVal) :
    (∀ n : Int, v = PyVal.pyInt n →
      Sender.setTimeout st v = ({ st with timeout := n }, Except.ok ())) ∧
    ((∀ n : Int, v ≠ PyVal.pyInt n) →
      (Sender.setTimeout st v).1 = st ∧
      isTypeErr (Sender.setTimeout st v).2 = true) := by
  cases v with
  | pyInt n =>
    refine ⟨fun n2 h => ?_, fun hn => absurd rfl (hn n)⟩
    obtain rfl : n = n2 := by
      injection h
    rfl
  | pyStr s =>
    exact ⟨fun n2 h => PyVal.noConfusion h, fun _ => ⟨rfl, rfl⟩⟩
  | pyNone =>
    exact ⟨fun n2 h => PyVal.noConfusion h, fun _ => ⟨rfl, rfl⟩⟩

/-- Witness for the amended C7: setting `timeout` to the string "30" fails
with `TypeError` and leaves the sender unchanged. -/
theorem c7_timeout_amended_witness :
    (Sender.setTimeout Sender.init (PyVal.pyStr "30")).1 = Sender.init ∧
    isTypeErr (Sender.setTimeout Sender.init (PyVal.pyStr "30")).2 = true :=
  (c7_timeout_amended Sender.init (PyVal.pyStr "30")).2
    (fun _ h => PyVal.noConfusion h)

/-- C10: reading `result` before any successful `commit()` returns the empty
dict (the constructor initialises `_result = {}` and the getter is total,
never raising), and a `commit()` that raises leaves the handler — its
`result` included — untouched, so `result` is populated only by a
`commit()` that completed classification. -/
theorem c10_result_before_commit :
    ResponseHandler.init.result = RDict.empty ∧
    ∀ st : ResponseHandler, isErr (ResponseHandler.commit st).2 = true →
      (ResponseHandler.commit st).1 = st := by
  refine ⟨rfl, fun st h => ?_⟩
  revert h
  unfold ResponseHandler.commit
  split_ifs
  · intro _
    rfl
  · intro _
    rfl
  · intro h
    exact absurd h (by simp [isErr])
  · intro h
    exact absurd h (by simp [isErr])

/-- Witness for C10: the fresh handler's failing `commit()` leaves the state
(and so the empty `result`) unchanged. -/
theorem c10_result_before_commit_witness :
    (ResponseHandler.commit ResponseHandler.init).1 = ResponseHandler.init :=
  c10_result_before_commit.2 ResponseHandler.init (by decide)

end NdApiToGui
